import Mathlib

/-!
Verification of the school-bus route-optimization core
(`backend/services/genetic_algorithm.py`, `backend/services/reinforcement_learning.py`,
`backend/services/route_optimizer.py`).

Modelling conventions:
* Python floats are modelled as rationals (`ℚ`); Python ints as `ℤ`/`ℕ`.
* The haversine distance (`_haversine_distance`) and the RL planar distance
  (`_calculate_distance`) involve transcendental functions and square roots, so each
  is abstracted as an explicit function parameter `dKm` / `pd`; the only property the
  source guarantees and the proofs use is non-negativity.
* The global Mersenne-Twister (`random` module) is modelled by an explicit
  deterministic generator `RNG` threaded through every stochastic operation; the
  theorems quantify over all generator states.
* Python runtime failures (`StopIteration` from exhausted `next(...)` generators,
  `IndexError` from `population[0]` on an empty list, `ValueError` from
  `random.randint`/`random.sample` with an invalid range, `AttributeError` on `None`)
  are modelled with `Except Err`.  The constructor `Err.configurationError` is never
  produced by the embedded code; it names the `ConfigurationError` that the spec's
  error taxonomy describes, so that claims about it can be stated.
* `round(x, n)` is modelled by `roundTo n` using round-half-to-even, Python's
  rounding mode for ties.
-/

namespace SBR

/-- Runtime failures of the embedded Python code, plus the spec's
`ConfigurationError` (never raised by the code itself). -/
inductive Err where
  | valueError
  | indexError
  | stopIteration
  | noneTypeError
  | configurationError
deriving DecidableEq, Repr

/-- Latitude/longitude pair, as the `location` dictionaries in the input payload. -/
structure Location where
  lat : ℚ
  lng : ℚ
deriving DecidableEq, Repr

/-- Raw stop dictionary as consumed by `optimize` (`students` may be absent:
`s.get('students', 1)`). -/
structure StopD where
  id : ℤ
  location : Location
  students : Option ℤ := none
deriving DecidableEq, Repr

/-- Raw bus dictionary as consumed by `optimize`. -/
structure BusD where
  id : ℤ
  capacity : ℤ
deriving DecidableEq, Repr

/-- Constraints dictionary; both keys are advisory and may be absent. -/
structure Constraints where
  max_time : Option ℤ := none
  max_distance : Option ℚ := none
deriving DecidableEq, Repr

/-- The `Stop` dataclass of `genetic_algorithm.py`. -/
structure Stop where
  id : ℤ
  location : Location
  students : ℤ
  time_window : ℤ × ℤ := (0, 1440)
deriving DecidableEq, Repr

/-- The `Bus` dataclass of `genetic_algorithm.py`. -/
structure Bus where
  id : ℤ
  capacity : ℤ
  fuel_efficiency : ℚ := 8
deriving DecidableEq, Repr

/-- The `Route` dataclass of `genetic_algorithm.py`. -/
structure Route where
  bus_id : ℤ
  stops : List ℤ
  total_distance : ℚ := 0
  total_time : ℤ := 0
  fitness : ℚ := 0
deriving DecidableEq, Repr

/-- Constructor arguments of `GeneticAlgorithmOptimizer.__init__`. -/
structure GAConfig where
  population_size : ℕ := 50
  generations : ℕ := 100
  mutation_rate : ℚ := 1/10
  crossover_rate : ℚ := 4/5
deriving DecidableEq, Repr

/-- Fixed objective weight `self.distance_weight = 0.4`. -/
def distance_weight : ℚ := 4/10

/-- Fixed objective weight `self.time_weight = 0.3`. -/
def time_weight : ℚ := 3/10

/-- Fixed objective weight `self.capacity_weight = 0.3`. -/
def capacity_weight : ℚ := 3/10

/-- Round half to even, Python's tie-breaking rule for `round`. -/
def roundHalfEven (q : ℚ) : ℤ :=
  let f := ⌊q⌋
  if q - f < 1/2 then f
  else if q - f > 1/2 then f + 1
  else if f % 2 = 0 then f else f + 1

/-- Model of Python's `round(q, nd)`. -/
def roundTo (nd : ℕ) (q : ℚ) : ℚ :=
  (roundHalfEven (q * 10 ^ nd) : ℚ) / 10 ^ nd

/-- Explicit deterministic pseudo-random generator standing in for the global
`random` module state. -/
structure RNG where
  seed : ℕ
deriving DecidableEq, Repr

/-- Advance the generator one step (linear congruential). -/
def RNG.next (g : RNG) : ℕ × RNG :=
  let s := (g.seed * 1103515245 + 12345) % 2147483648
  (s, ⟨s⟩)

/-- Draw a value in `[0, n)` (callers guarantee `0 < n`). -/
def randBelow (g : RNG) (n : ℕ) : ℕ × RNG :=
  let (v, g') := g.next
  (if n = 0 then 0 else v % n, g')

/-- Model of `random.random()`: a rational in `[0, 1)`. -/
def randFloat (g : RNG) : ℚ × RNG :=
  let (v, g') := g.next
  ((v % 1000000 : ℚ) / 1000000, g')

/-- Model of `random.randint(a, b)` (inclusive bounds); raises `ValueError` on an
empty range, exactly as Python does. -/
def randIntIncl (g : RNG) (a b : ℕ) : Except Err (ℕ × RNG) :=
  if b < a then Except.error Err.valueError
  else
    let (v, g') := g.next
    Except.ok (a + v % (b - a + 1), g')

/-- Model of `random.sample(range n, 2)`: two distinct indices below `n`
(callers guarantee `2 ≤ n`). -/
def samplePair (g : RNG) (n : ℕ) : (ℕ × ℕ) × RNG :=
  let (a, g1) := randBelow g n
  let (b0, g2) := randBelow g1 (n - 1)
  ((a, if a ≤ b0 then b0 + 1 else b0), g2)

/-- Model of `random.sample(l, k)`: `k` distinct positions of `l`, in draw order;
`none` when `k` exceeds the available elements (Python's `ValueError`). -/
def sampleK (g : RNG) (l : List α) : ℕ → Option (List α × RNG)
  | 0 => some ([], g)
  | k + 1 =>
    match l.length with
    | 0 => none
    | _ + 1 =>
      let (i, g1) := randBelow g l.length
      match l[i]? with
      | none => none
      | some x =>
        match sampleK g1 (l.eraseIdx i) k with
        | none => none
        | some (xs, g2) => some (x :: xs, g2)

/-- First stop whose id matches, as `next(s for s in stops if s.id == sid)`. -/
def findStop (stops : List Stop) (sid : ℤ) : Option Stop :=
  stops.find? (fun s => s.id == sid)

/-- First bus whose id matches, as `next(b for b in buses if b.id == bus_id)`. -/
def findBus (buses : List Bus) (bid : ℤ) : Option Bus :=
  buses.find? (fun b => b.id == bid)

/-- Sum of `dKm` over a list of consecutive stop-id pairs; `none` when a stop id is
absent from the stop list (Python's exhausted `next(...)`). -/
def distSum (dKm : Location → Location → ℚ) (stops : List Stop) :
    List (ℤ × ℤ) → Option ℚ
  | [] => some 0
  | p :: ps => do
    let s1 ← findStop stops p.1
    let s2 ← findStop stops p.2
    let rest ← distSum dKm stops ps
    pure (dKm s1.location s2.location + rest)

/-- `GeneticAlgorithmOptimizer._calculate_total_distance`: 0 for fewer than 2 stops;
otherwise the sum of `dKm` over consecutive stops of the route. -/
def calculate_total_distance (dKm : Location → Location → ℚ) (route : Route)
    (stops : List Stop) : Option ℚ :=
  if route.stops.length < 2 then some 0
  else distSum dKm stops (route.stops.zip route.stops.tail)

/-- `sum(s.students for s in stops if s.id in route.stops)`. -/
def routeStudents (stops : List Stop) (routeStops : List ℤ) : ℤ :=
  ((stops.filter (fun s => routeStops.contains s.id)).map Stop.students).sum

/-- `GeneticAlgorithmOptimizer._calculate_fitness`. -/
def calculate_fitness (dKm : Location → Location → ℚ) (route : Route)
    (stops : List Stop) (buses : List Bus) : Option ℚ := do
  let distance ← calculate_total_distance dKm route stops
  let time := distance / 30 * 60
  let bus ← findBus buses route.bus_id
  let total_students := routeStudents stops route.stops
  let capacity_util := min ((total_students : ℚ) / (bus.capacity : ℚ)) 1
  let distance_score := 1 / (1 + distance / 100)
  let time_score := 1 / (1 + time / 60)
  pure (distance_weight * distance_score + time_weight * time_score +
        capacity_weight * capacity_util)

/-- Python's `max(l, key=f)`: first element attaining the maximum. -/
def maxByFitness : List Route → Option Route
  | [] => none
  | x :: xs => some (xs.foldl (fun best r => if r.fitness > best.fitness then r else best) x)

/-- `GeneticAlgorithmOptimizer._tournament_selection` with the default tournament
size 3; `random.sample` raises `ValueError` when the population has fewer than 3
candidates. -/
def tournament_selection (g : RNG) (population : List Route) :
    Except Err (Route × RNG) :=
  match sampleK g population 3 with
  | none => Except.error Err.valueError
  | some (tournament, g') =>
    match maxByFitness tournament with
    | none => Except.error Err.valueError
    | some r => Except.ok (r, g')

/-- The fill phase of order crossover: append each stop of `source` that is not yet
present, while the child is shorter than `maxLen`. -/
def fillChild (seed : List ℤ) (source : List ℤ) (maxLen : ℕ) : List ℤ :=
  source.foldl (fun cur s => if s ∉ cur ∧ cur.length < maxLen then cur ++ [s] else cur) seed

/-- `GeneticAlgorithmOptimizer._crossover` (order crossover); parents with fewer
than 2 stops pass through unchanged. -/
def crossover (g : RNG) (parent1 parent2 : Route) : (Route × Route) × RNG :=
  if parent1.stops.length < 2 ∨ parent2.stops.length < 2 then ((parent1, parent2), g)
  else
    let size := min parent1.stops.length parent2.stops.length
    let ((a, b), g1) := samplePair g size
    let start := min a b
    let stop := max a b
    let seg1 := (parent1.stops.drop start).take (stop - start)
    let seg2 := (parent2.stops.drop start).take (stop - start)
    let child1_stops := fillChild seg1 parent2.stops parent1.stops.length
    let child2_stops := fillChild seg2 parent1.stops parent2.stops.length
    (({ bus_id := parent1.bus_id, stops := child1_stops },
      { bus_id := parent2.bus_id, stops := child2_stops }), g1)

/-- `GeneticAlgorithmOptimizer._mutate` (swap mutation); routes with fewer than 2
stops pass through unchanged. -/
def mutate (g : RNG) (route : Route) : Route × RNG :=
  if route.stops.length < 2 then (route, g)
  else
    let ((i, j), g1) := samplePair g route.stops.length
    let ms := route.stops
    let swapped := (ms.set i (ms.getD j 0)).set j (ms.getD i 0)
    ({ bus_id := route.bus_id, stops := swapped }, g1)

/-- Metrics dictionary of an optimization result; every key may be absent, since
the GA and the RL optimizer populate different subsets and the degenerate RL
result is the empty dictionary. -/
structure Metrics where
  total_distance_km : Option ℚ := none
  estimated_time_minutes : Option ℚ := none
  fuel_consumption_liters : Option ℚ := none
  students_served : Option ℤ := none
  capacity_utilization : Option ℚ := none
  stops_count : Option ℕ := none
  rl_episodes : Option ℕ := none
  final_reward : Option ℚ := none
deriving DecidableEq, Repr

/-- One formatted stop of an output route. -/
structure FormattedStop where
  id : ℤ
  location : Location
  sequence : ℕ
deriving DecidableEq, Repr

/-- One formatted route of an output (`fitness_score` for GA routes, `rl_reward`
for RL routes). -/
structure FormattedRoute where
  bus_id : ℤ
  stops : List FormattedStop
  fitness_score : Option ℚ := none
  rl_reward : Option ℚ := none
deriving DecidableEq, Repr

/-- Result dictionary returned by the optimizers; optional keys model the fields
only some of the optimizers set. -/
structure OptResult where
  routes : List FormattedRoute
  metrics : Metrics
  generations : Option ℕ := none
  final_fitness : Option (WithBot ℚ) := none
  algorithm_used : Option String := none
  heuristics_applied : List String := []
  optimization_approach : Option String := none
deriving DecidableEq, Repr

/-- `GeneticAlgorithmOptimizer._calculate_route_metrics`. -/
def calculate_route_metrics (dKm : Location → Location → ℚ) (route : Route)
    (stops : List Stop) (buses : List Bus) : Option Metrics := do
  let distance ← calculate_total_distance dKm route stops
  let time := distance / 30 * 60
  let bus ← findBus buses route.bus_id
  let fuel := distance / bus.fuel_efficiency
  let total_students := routeStudents stops route.stops
  pure { total_distance_km := some (roundTo 2 distance)
         estimated_time_minutes := some (roundTo 2 time)
         fuel_consumption_liters := some (roundTo 2 fuel)
         students_served := some total_students
         capacity_utilization :=
           some (roundTo 2 ((total_students : ℚ) / (bus.capacity : ℚ) * 100))
         stops_count := some route.stops.length }

/-- Option-valued traversal of a list, as a Python list comprehension whose body
may raise `StopIteration`. -/
def mapMO {α β : Type} (f : α → Option β) : List α → Option (List β)
  | [] => some []
  | a :: l => do
    let b ← f a
    let bs ← mapMO f l
    pure (b :: bs)

/-- `GeneticAlgorithmOptimizer._format_routes`. -/
def format_routes (routes : List Route) (stops : List Stop) :
    Option (List FormattedRoute) :=
  mapMO (fun route => do
    let fstops ← mapMO (fun p => do
        let s ← findStop stops p.2
        pure { id := p.2, location := s.location, sequence := p.1 : FormattedStop })
      route.stops.enum
    pure { bus_id := route.bus_id, stops := fstops
           fitness_score := some (roundTo 4 route.fitness) : FormattedRoute })
    routes

/-- `GeneticAlgorithmOptimizer._initialize_population`: one random candidate per
bus per population slot, truncated to the population size.  The subset size is
`min(len(stop_ids), random.randint(3, len(stop_ids)))`; `random.randint` is
evaluated first and raises `ValueError` whenever there are fewer than 3 stops. -/
def init_population (cfg : GAConfig) (stops : List Stop) (buses : List Bus)
    (g : RNG) : Except Err (List Route × RNG) := do
  let stop_ids := stops.map Stop.id
  let r ← (List.range cfg.population_size).foldlM
    (fun (acc : List Route × RNG) _ =>
      buses.foldlM
        (fun (acc2 : List Route × RNG) bus => do
          let (n, g') ← randIntIncl acc2.2 3 stop_ids.length
          match sampleK g' stop_ids (min stop_ids.length n) with
          | none => Except.error Err.valueError
          | some (route_stops, g'') =>
            Except.ok (acc2.1 ++ [{ bus_id := bus.id, stops := route_stops }], g''))
        acc)
    ([], g)
  Except.ok (r.1.take cfg.population_size, r.2)

/-- Loop state of `GeneticAlgorithmOptimizer.optimize`; `best_fitness` starts at
`float('-inf')`, modelled by `⊥ : WithBot ℚ`. -/
structure GAState where
  population : List Route
  best_solution : Option Route
  best_fitness : WithBot ℚ
  rng : RNG
deriving DecidableEq, Repr

/-- Per-generation fitness evaluation: `route.fitness = self._calculate_fitness(...)`
for every candidate. -/
def evalFitness (dKm : Location → Location → ℚ) (stops : List Stop)
    (buses : List Bus) (population : List Route) : Except Err (List Route) :=
  population.mapM (fun r =>
    match calculate_fitness dKm r stops buses with
    | none => Except.error Err.stopIteration
    | some f => Except.ok { r with fitness := f })

/-- Stable insertion into a descending-by-fitness list: the element goes in front
of the first entry with fitness at most its own, so earlier elements stay ahead
of equal-fitness later ones. -/
def insertDesc (r : Route) : List Route → List Route
  | [] => [r]
  | x :: xs => if x.fitness ≤ r.fitness then r :: x :: xs else x :: insertDesc r xs

/-- `population.sort(key=lambda x: x.fitness, reverse=True)`: stable descending
sort by fitness (Python's sort is stable). -/
def sortByFitness : List Route → List Route
  | [] => []
  | x :: xs => insertDesc x (sortByFitness xs)

/-- Body of the `while len(new_population) < self.population_size` refill loop:
two tournament selections, optional crossover, two independent mutation coins,
and the offspring pair appended. -/
def refillBody (cfg : GAConfig) (population : List Route)
    (acc : List Route × RNG) : Except Err (List Route × RNG) := do
  let (parent1, g1) ← tournament_selection acc.2 population
  let (parent2, g2) ← tournament_selection g1 population
  let (c, g3) := randFloat g2
  let ((child1, child2), g4) :=
    if c < cfg.crossover_rate then crossover g3 parent1 parent2
    else ((parent1, parent2), g3)
  let (m1, g5) := randFloat g4
  let (child1', g6) := if m1 < cfg.mutation_rate then mutate g5 child1 else (child1, g5)
  let (m2, g7) := randFloat g6
  let (child2', g8) := if m2 < cfg.mutation_rate then mutate g7 child2 else (child2, g7)
  Except.ok (acc.1 ++ [child1', child2'], g8)

/-- The refill loop itself.  Every iteration of the Python `while` loop appends
exactly two offspring, so the loop runs exactly
`⌈(population_size - len(new_population)) / 2⌉` times; it is modelled by folding
the body that many times. -/
def refillLoop (cfg : GAConfig) (population : List Route) (newPop : List Route)
    (g : RNG) : Except Err (List Route × RNG) :=
  (List.range ((cfg.population_size - newPop.length + 1) / 2)).foldlM
    (fun acc _ => refillBody cfg population acc) (newPop, g)

/-- One generation of `GeneticAlgorithmOptimizer.optimize`: evaluate fitness, sort
descending, track the best-ever candidate (`population[0]` raises `IndexError` on
an empty population), keep the top 2 (elitism) and refill. -/
def gaStep (cfg : GAConfig) (dKm : Location → Location → ℚ) (stops : List Stop)
    (buses : List Bus) (st : GAState) : Except Err GAState := do
  let evaluated ← evalFitness dKm stops buses st.population
  let sorted := sortByFitness evaluated
  let top ← match sorted with
    | [] => Except.error Err.indexError
    | r :: _ => Except.ok r
  let (best_fitness', best_solution') :=
    if st.best_fitness < (top.fitness : WithBot ℚ)
    then ((top.fitness : WithBot ℚ), some top)
    else (st.best_fitness, st.best_solution)
  let (filled, g') ← refillLoop cfg sorted (sorted.take 2) st.rng
  Except.ok { population := filled.take cfg.population_size
              best_solution := best_solution'
              best_fitness := best_fitness'
              rng := g' }

/-- The `for generation in range(self.generations)` loop. -/
def gaLoop (cfg : GAConfig) (dKm : Location → Location → ℚ) (stops : List Stop)
    (buses : List Bus) : ℕ → GAState → Except Err GAState
  | 0, st => Except.ok st
  | n + 1, st => do
    let st' ← gaStep cfg dKm stops buses st
    gaLoop cfg dKm stops buses n st'

/-- `GeneticAlgorithmOptimizer.optimize`: convert the raw dictionaries, run the
generational loop, then compute metrics and the formatted routes of the
best-ever candidate. -/
def GAOptimizer.optimize (cfg : GAConfig) (dKm : Location → Location → ℚ)
    (stops : List StopD) (buses : List BusD) (_constraints : Constraints)
    (g : RNG) : Except Err OptResult := do
  let stop_objects := stops.map (fun s =>
    { id := s.id, location := s.location, students := s.students.getD 1 : Stop })
  let bus_objects := buses.map (fun b => { id := b.id, capacity := b.capacity : Bus })
  let (population, g1) ← init_population cfg stop_objects bus_objects g
  let stFinal ← gaLoop cfg dKm stop_objects bus_objects cfg.generations
    { population := population, best_solution := none, best_fitness := ⊥, rng := g1 }
  let best ← match stFinal.best_solution with
    | none => Except.error Err.noneTypeError
    | some r => Except.ok r
  let metrics ← match calculate_route_metrics dKm best stop_objects bus_objects with
    | none => Except.error Err.stopIteration
    | some m => Except.ok m
  let routes ← match format_routes [best] stop_objects with
    | none => Except.error Err.stopIteration
    | some rs => Except.ok rs
  Except.ok { routes := routes, metrics := metrics
              generations := some cfg.generations
              final_fitness := some stFinal.best_fitness }

/-- Best-ever fitness carried by a loop outcome (`⊥` for a failed run). -/
def exceptBestFitness : Except Err GAState → WithBot ℚ
  | Except.ok st => st.best_fitness
  | Except.error _ => ⊥

deriving instance DecidableEq for Except

/-- Value of `result['metrics'].get('total_distance_km', float('inf'))`: an absent
key compares as `+∞`. -/
def distScore (d : Option ℚ) : WithTop ℚ :=
  d.elim ⊤ (fun q => (q : WithTop ℚ))

/-- `RouteOptimizer._apply_heuristics`: annotates the winning result, performing no
route changes. -/
def apply_heuristics (result : OptResult) : OptResult :=
  { result with
      heuristics_applied := ["time_window_validation", "load_balancing", "route_smoothing"]
      optimization_approach := some "hybrid" }

/-- `RouteOptimizer.optimize`, with the two sub-optimizers abstracted as the
functions the orchestrator calls (`self.ga_optimizer.optimize` and
`self.rl_optimizer.optimize`); their exceptions propagate uncaught. -/
def RouteOptimizer.optimize
    (gaOpt rlOpt : List StopD → List BusD → Constraints → Except Err OptResult)
    (stops : List StopD) (buses : List BusD) (constraints : Constraints) :
    Except Err OptResult := do
  let ga_result ← gaOpt stops buses constraints
  let final_result ←
    if stops.length > 20 then do
      let rl_result ← rlOpt stops buses constraints
      let ga_score := distScore ga_result.metrics.total_distance_km
      let rl_score := distScore rl_result.metrics.total_distance_km
      if rl_score < ga_score then
        Except.ok { rl_result with algorithm_used := some "rl" }
      else
        Except.ok { ga_result with algorithm_used := some "genetic" }
    else
      Except.ok { ga_result with algorithm_used := some "genetic" }
  Except.ok (apply_heuristics final_result)

/-- First raw stop dictionary whose id matches. -/
def findStopD (stops : List StopD) (sid : ℤ) : Option StopD :=
  stops.find? (fun s => s.id == sid)

/-- Sum of the RL planar distance `pd` over consecutive route stops, as the metrics
loop of `RLOptimizer._format_results`; `none` when a stop id is absent. -/
def rlPairSum (pd : Location → Location → ℚ) (stops : List StopD) :
    List (ℤ × ℤ) → Option ℚ
  | [] => some 0
  | p :: ps => do
    let s1 ← findStopD stops p.1
    let s2 ← findStopD stops p.2
    let rest ← rlPairSum pd stops ps
    pure (pd s1.location s2.location + rest)

/-- `RLOptimizer._format_results`: the degenerate answer for an empty best route or
empty bus list, otherwise a single route assigned to `buses[0]`.  The planar
distance `_calculate_distance` is abstracted as `pd`. -/
def RLOptimizer.format_results (pd : Location → Location → ℚ) (episodes : ℕ)
    (route : List ℤ) (stops : List StopD) (buses : List BusD) (reward : ℚ) :
    Option OptResult :=
  if route.isEmpty || buses.isEmpty then
    some { routes := [], metrics := {} }
  else do
    let bus ← buses.head?
    let total_distance ← rlPairSum pd stops (route.zip route.tail)
    let fstops ← mapMO (fun p => do
        let s ← findStopD stops p.2
        pure { id := p.2, location := s.location, sequence := p.1 : FormattedStop })
      route.enum
    pure { routes := [{ bus_id := bus.id, stops := fstops
                        rl_reward := some (roundTo 2 reward) }]
           metrics := { total_distance_km := some (roundTo 2 total_distance)
                        estimated_time_minutes := some (roundTo 2 ((route.length : ℚ) * 5))
                        stops_count := some route.length
                        rl_episodes := some episodes
                        final_reward := some (roundTo 2 reward) } }

/-- One experience tuple `(state, action, reward, next_state, done)` of the DQN
replay buffer; state vectors are lists of rationals. -/
structure Transition where
  state : List ℚ
  action : ℕ
  reward : ℚ
  next_state : List ℚ
  done : Bool
deriving DecidableEq, Repr

/-- The `DQN` agent of `reinforcement_learning.py`: bounded replay buffer,
discount, epsilon schedule, and the dictionary `q_table` modelled as an
association list from discretized state keys to per-action value rows. -/
structure DQN where
  state_size : ℕ
  action_size : ℕ
  memory : List Transition
  gamma : ℚ
  epsilon : ℚ
  epsilon_min : ℚ
  epsilon_decay : ℚ
  learning_rate : ℚ
  q_table : List (List ℚ × List ℚ)
deriving DecidableEq, Repr

/-- `DQN.__init__`. -/
def DQN.make (state_size action_size : ℕ) : DQN :=
  { state_size := state_size
    action_size := action_size
    memory := []
    gamma := 95/100
    epsilon := 1
    epsilon_min := 1/100
    epsilon_decay := 995/1000
    learning_rate := 1/1000
    q_table := [] }

/-- `DQN.remember`: append to the replay deque, dropping the oldest entries beyond
the capacity of 2000. -/
def DQN.remember (d : DQN) (t : Transition) : DQN :=
  let m := d.memory ++ [t]
  { d with memory := if 2000 < m.length then m.drop (m.length - 2000) else m }

/-- State key `tuple(state.round(2))`. -/
def stateKey (s : List ℚ) : List ℚ :=
  s.map (roundTo 2)

/-- `if key not in q_table: q_table[key] = np.zeros(action_size)`. -/
def qEnsure (action_size : ℕ) (tbl : List (List ℚ × List ℚ)) (k : List ℚ) :
    List (List ℚ × List ℚ) :=
  if (tbl.find? (fun p => p.1 == k)).isSome then tbl
  else tbl ++ [(k, List.replicate action_size 0)]

/-- Read the action-value row of a key (callers ensure the key is present). -/
def qGet (tbl : List (List ℚ × List ℚ)) (k : List ℚ) : List ℚ :=
  ((tbl.find? (fun p => p.1 == k)).map Prod.snd).getD []

/-- `q_table[state_key][action] = target`. -/
def qSet (tbl : List (List ℚ × List ℚ)) (k : List ℚ) (action : ℕ) (target : ℚ) :
    List (List ℚ × List ℚ) :=
  tbl.map (fun p => if p.1 == k then (p.1, p.2.set action target) else p)

/-- `np.max` over an action-value row. -/
def listMax : List ℚ → ℚ
  | [] => 0
  | x :: xs => xs.foldl max x

/-- One-step TD write of `DQN.replay` for a single sampled transition:
`target = reward` if terminal else `reward + gamma * max(q_table[next_state_key])`,
then `q_table[state_key][action] = target` (both keys ensured first). -/
def trainStep (acc : DQN) (t : Transition) : DQN :=
  let sk := stateKey t.state
  let nk := stateKey t.next_state
  let tbl := qEnsure acc.action_size (qEnsure acc.action_size acc.q_table sk) nk
  let target := if t.done then t.reward
                else t.reward + acc.gamma * listMax (qGet tbl nk)
  { acc with q_table := qSet tbl sk t.action target }

/-- `DQN.replay`: return unchanged when the buffer holds fewer than `batch_size`
entries; otherwise sample a minibatch, apply the one-step TD write for each
sampled transition, then decay epsilon once if it still exceeds `epsilon_min`. -/
def DQN.replay (d : DQN) (g : RNG) (batch_size : ℕ) : DQN × RNG :=
  if d.memory.length < batch_size then (d, g)
  else
    match sampleK g d.memory batch_size with
    | none => (d, g)
    | some (minibatch, g') =>
      let trained := minibatch.foldl trainStep d
      if trained.epsilon_min < trained.epsilon then
        ({ trained with epsilon := trained.epsilon * trained.epsilon_decay }, g')
      else (trained, g')

/-- One externally driven operation on the agent. -/
inductive DQNOp where
  | rememberOp (t : Transition)
  | replayOp (batch_size : ℕ)
deriving Repr

/-- Run a sequence of `remember`/`replay` operations against the agent. -/
def runOps : DQN → RNG → List DQNOp → DQN × RNG
  | d, g, [] => (d, g)
  | d, g, DQNOp.rememberOp t :: ops => runOps (d.remember t) g ops
  | d, g, DQNOp.replayOp bs :: ops =>
    let (d', g') := d.replay g bs
    runOps d' g' ops

lemma distSum_some_nonneg (dKm : Location → Location → ℚ)
    (hd : ∀ a b, 0 ≤ dKm a b) (stops : List Stop) :
    ∀ ps : List (ℤ × ℤ),
      (∀ p ∈ ps, (findStop stops p.1).isSome ∧ (findStop stops p.2).isSome) →
      ∃ d, distSum dKm stops ps = some d ∧ 0 ≤ d := by
  intro ps
  induction ps with
  | nil => exact fun _ => ⟨0, rfl, le_refl 0⟩
  | cons p ps ih =>
    intro h
    obtain ⟨h1, h2⟩ := h p (List.mem_cons_self p ps)
    obtain ⟨s1, hs1⟩ := Option.isSome_iff_exists.mp h1
    obtain ⟨s2, hs2⟩ := Option.isSome_iff_exists.mp h2
    obtain ⟨d, hds, hdn⟩ := ih (fun q hq => h q (List.mem_cons_of_mem p hq))
    exact ⟨dKm s1.location s2.location + d,
      by simp [distSum, hs1, hs2, hds],
      add_nonneg (hd _ _) hdn⟩

lemma calculate_total_distance_some_nonneg (dKm : Location → Location → ℚ)
    (hd : ∀ a b, 0 ≤ dKm a b) (route : Route) (stops : List Stop)
    (hids : ∀ sid ∈ route.stops, (findStop stops sid).isSome) :
    ∃ d, calculate_total_distance dKm route stops = some d ∧ 0 ≤ d := by
  unfold calculate_total_distance
  by_cases h2 : route.stops.length < 2
  · exact ⟨0, by simp [h2], le_refl 0⟩
  · simp only [h2, if_false]
    apply distSum_some_nonneg dKm hd stops
    intro p hp
    obtain ⟨a, b⟩ := p
    obtain ⟨ha, hb⟩ := List.of_mem_zip hp
    exact ⟨hids a ha, hids b ((List.tail_sublist route.stops).mem hb)⟩

lemma routeStudents_nonneg (stops : List Stop) (routeStops : List ℤ)
    (hstud : ∀ s ∈ stops, 0 ≤ s.students) :
    0 ≤ routeStudents stops routeStops := by
  apply List.sum_nonneg
  intro x hx
  obtain ⟨s, hs, rfl⟩ := List.mem_map.mp hx
  exact hstud s (List.mem_of_mem_filter hs)

/-- C1: for a route whose bus exists with positive capacity and whose stop ids all
occur in the stop list (students nonnegative), `_calculate_fitness` returns
`0.4 * (1/(1+d/100)) + 0.3 * (1/(1+t/60)) + 0.3 * min(served/capacity, 1)` with
`d` the summed consecutive distances (0 for fewer than 2 stops) and
`t = d/30*60`, and this value lies in the interval `(0, 1]`. -/
theorem ga_fitness_formula_and_bounds (dKm : Location → Location → ℚ)
    (hd : ∀ a b, 0 ≤ dKm a b) (route : Route) (stops : List Stop)
    (buses : List Bus) (bus : Bus)
    (hbus : findBus buses route.bus_id = some bus) (hcap : 0 < bus.capacity)
    (hids : ∀ sid ∈ route.stops, (findStop stops sid).isSome)
    (hstud : ∀ s ∈ stops, 0 ≤ s.students) :
    ∃ d f, calculate_total_distance dKm route stops = some d ∧ 0 ≤ d ∧
      calculate_fitness dKm route stops buses = some f ∧
      f = 0.4 * (1 / (1 + d / 100)) + 0.3 * (1 / (1 + (d / 30 * 60) / 60)) +
          0.3 * min ((routeStudents stops route.stops : ℚ) / (bus.capacity : ℚ)) 1 ∧
      0 < f ∧ f ≤ 1 := by
  obtain ⟨d, hdist, hdn⟩ :=
    calculate_total_distance_some_nonneg dKm hd route stops hids
  have hserved : (0 : ℚ) ≤ (routeStudents stops route.stops : ℚ) := by
    exact_mod_cast routeStudents_nonneg stops route.stops hstud
  have hcapq : (0 : ℚ) < (bus.capacity : ℚ) := by exact_mod_cast hcap
  have hfit : calculate_fitness dKm route stops buses =
      some (4/10 * (1 / (1 + d / 100)) + 3/10 * (1 / (1 + (d / 30 * 60) / 60)) +
            3/10 * min ((routeStudents stops route.stops : ℚ) / (bus.capacity : ℚ)) 1) := by
    simp [calculate_fitness, hdist, hbus, Option.bind,
          distance_weight, time_weight, capacity_weight]
  have h100 : (0 : ℚ) ≤ d / 100 := div_nonneg hdn (by norm_num)
  have h100' : (0 : ℚ) < 1 + d / 100 := by linarith
  have ht : (0 : ℚ) ≤ (d / 30 * 60) / 60 := by positivity
  have ht' : (0 : ℚ) < 1 + (d / 30 * 60) / 60 := by linarith
  have hds_pos : 0 < 1 / (1 + d / 100) := one_div_pos.mpr h100'
  have hds_le : 1 / (1 + d / 100) ≤ 1 := by rw [div_le_one h100']; linarith
  have hts_pos : 0 < 1 / (1 + (d / 30 * 60) / 60) := one_div_pos.mpr ht'
  have hts_le : 1 / (1 + (d / 30 * 60) / 60) ≤ 1 := by rw [div_le_one ht']; linarith
  have hcu_lb : 0 ≤ min ((routeStudents stops route.stops : ℚ) / (bus.capacity : ℚ)) 1 :=
    le_min (div_nonneg hserved (le_of_lt hcapq)) zero_le_one
  have hcu_ub : min ((routeStudents stops route.stops : ℚ) / (bus.capacity : ℚ)) 1 ≤ 1 :=
    min_le_right _ _
  refine ⟨d, _, hdist, hdn, hfit, by norm_num, by linarith, by linarith⟩

def c1w_route : Route := { bus_id := 1, stops := [10, 20] }

def c1w_stops : List Stop :=
  [{ id := 10, location := { lat := 0, lng := 0 }, students := 5 },
   { id := 20, location := { lat := 1, lng := 1 }, students := 7 }]

def c1w_buses : List Bus := [{ id := 1, capacity := 50 }]

/-- Witness for C1 at a concrete two-stop route. -/
theorem ga_fitness_formula_and_bounds_witness :
    ∃ d f, calculate_total_distance (fun _ _ => 1) c1w_route c1w_stops = some d ∧ 0 ≤ d ∧
      calculate_fitness (fun _ _ => 1) c1w_route c1w_stops c1w_buses = some f ∧
      f = 0.4 * (1 / (1 + d / 100)) + 0.3 * (1 / (1 + (d / 30 * 60) / 60)) +
          0.3 * min ((routeStudents c1w_stops c1w_route.stops : ℚ) / ((50 : ℤ) : ℚ)) 1 ∧
      0 < f ∧ f ≤ 1 :=
  ga_fitness_formula_and_bounds (fun _ _ => 1) (fun _ _ => by norm_num)
    c1w_route c1w_stops c1w_buses { id := 1, capacity := 50 }
    (by decide) (by decide) (by decide) (by decide)

lemma samplePair_bounds (g : RNG) (n : ℕ) (hn : 2 ≤ n) :
    (samplePair g n).1.1 < n ∧ (samplePair g n).1.2 < n ∧
    (samplePair g n).1.1 ≠ (samplePair g n).1.2 := by
  unfold samplePair randBelow
  have h0 : n ≠ 0 := by omega
  have h1 : n - 1 ≠ 0 := by omega
  simp only [h0, h1, if_false]
  have ha : (g.next.1) % n < n := Nat.mod_lt _ (by omega)
  have hb : ((g.next.2).next.1) % (n - 1) < n - 1 := Nat.mod_lt _ (by omega)
  by_cases hc : g.next.1 % n ≤ (g.next.2).next.1 % (n - 1)
  · simp only [hc, if_true]
    omega
  · simp only [hc, if_false]
    omega

lemma perm_getD_cons_set (x : ℤ) :
    ∀ (xs : List ℤ) (m : ℕ), m < xs.length →
      ((xs.getD m 0) :: xs.set m x).Perm (x :: xs) := by
  intro xs
  induction xs with
  | nil => intro m hm; simp at hm
  | cons y ys ih =>
    intro m hm
    cases m with
    | zero => simpa using List.Perm.swap x y ys
    | succ k =>
      have hk : k < ys.length := by simpa using hm
      exact (List.Perm.swap _ _ _).trans (((ih k hk).cons y).trans (List.Perm.swap _ _ _))

lemma set_set_perm :
    ∀ (l : List ℤ) (i j : ℕ), i < l.length → j < l.length →
      ((l.set i (l.getD j 0)).set j (l.getD i 0)).Perm l := by
  intro l
  induction l with
  | nil => intro i j hi _; simp at hi
  | cons x xs ih =>
    intro i j hi hj
    cases i with
    | zero =>
      cases j with
      | zero => simp
      | succ m =>
        have hm : m < xs.length := by simpa using hj
        simpa using perm_getD_cons_set x xs m hm
    | succ n =>
      cases j with
      | zero =>
        have hn : n < xs.length := by simpa using hi
        simpa using perm_getD_cons_set x xs n hn
      | succ m =>
        have hn : n < xs.length := by simpa using hi
        have hm : m < xs.length := by simpa using hj
        simpa using (ih n m hn hm).cons x

lemma fillChild_nodup (source : List ℤ) :
    ∀ (seed : List ℤ), seed.Nodup → ∀ maxLen, (fillChild seed source maxLen).Nodup := by
  unfold fillChild
  induction source with
  | nil => intro seed h _; simpa using h
  | cons s rest ih =>
    intro seed h maxLen
    simp only [List.foldl_cons]
    by_cases hc : s ∉ seed ∧ seed.length < maxLen
    · simp only [hc, if_true]
      exact ih _ (by simp [List.nodup_append, h, hc.1]) maxLen
    · simp only [hc, if_false]
      exact ih _ h maxLen

/-- C5: crossover children of duplicate-free parents are duplicate-free, and
mutation of a duplicate-free route swaps two positions, preserving the multiset
of stops (hence also freedom from duplicates). -/
theorem crossover_mutate_no_duplicates (g1 g2 : RNG) (parent1 parent2 r : Route)
    (h1 : parent1.stops.Nodup) (h2 : parent2.stops.Nodup) (hr : r.stops.Nodup) :
    ((crossover g1 parent1 parent2).1.1.stops.Nodup ∧
     (crossover g1 parent1 parent2).1.2.stops.Nodup) ∧
    ((mutate g2 r).1.stops.Perm r.stops ∧ (mutate g2 r).1.stops.Nodup) := by
  constructor
  · unfold crossover
    by_cases hc : parent1.stops.length < 2 ∨ parent2.stops.length < 2
    · simp only [hc, if_true]
      exact ⟨h1, h2⟩
    · simp only [hc, if_false]
      refine ⟨fillChild_nodup _ _ ?_ _, fillChild_nodup _ _ ?_ _⟩
      · exact h1.sublist ((List.take_sublist _ _).trans (List.drop_sublist _ _))
      · exact h2.sublist ((List.take_sublist _ _).trans (List.drop_sublist _ _))
  · unfold mutate
    by_cases hm : r.stops.length < 2
    · simp only [hm, if_true]
      exact ⟨List.Perm.refl _, hr⟩
    · simp only [hm, if_false]
      have hlen : 2 ≤ r.stops.length := by omega
      obtain ⟨hi, hj, _⟩ := samplePair_bounds g2 r.stops.length hlen
      have hperm := set_set_perm r.stops _ _ hi hj
      exact ⟨hperm, (hperm.nodup_iff).mpr hr⟩

def c5w_p1 : Route := { bus_id := 1, stops := [1, 2, 3] }

def c5w_p2 : Route := { bus_id := 2, stops := [4, 5, 6, 7] }

def c5w_r : Route := { bus_id := 1, stops := [8, 9] }

/-- Witness for C5 at concrete parents and a concrete route. -/
theorem crossover_mutate_no_duplicates_witness :
    ((crossover ⟨3⟩ c5w_p1 c5w_p2).1.1.stops.Nodup ∧
     (crossover ⟨3⟩ c5w_p1 c5w_p2).1.2.stops.Nodup) ∧
    ((mutate ⟨4⟩ c5w_r).1.stops.Perm c5w_r.stops ∧ (mutate ⟨4⟩ c5w_r).1.stops.Nodup) :=
  crossover_mutate_no_duplicates ⟨3⟩ ⟨4⟩ c5w_p1 c5w_p2 c5w_r
    (by decide) (by decide) (by decide)

lemma gaStep_best_fitness_mono (cfg : GAConfig) (dKm : Location → Location → ℚ)
    (stops : List Stop) (buses : List Bus) (st st' : GAState)
    (h : gaStep cfg dKm stops buses st = Except.ok st') :
    st.best_fitness ≤ st'.best_fitness := by
  unfold gaStep at h
  cases hev : evalFitness dKm stops buses st.population with
  | error e => rw [hev] at h; simp [Bind.bind, Except.bind] at h
  | ok evaluated =>
    rw [hev] at h
    simp only [Bind.bind, Except.bind] at h
    cases hs : sortByFitness evaluated with
    | nil => rw [hs] at h; simp at h
    | cons top rest =>
      rw [hs] at h
      simp only at h
      cases hr : refillLoop cfg (top :: rest) ((top :: rest).take 2) st.rng with
      | error e => rw [hr] at h; simp at h
      | ok pr =>
        rw [hr] at h
        simp only at h
        have hst : st' = { population := pr.1.take cfg.population_size
                           best_solution := (if st.best_fitness < (top.fitness : WithBot ℚ)
                             then ((top.fitness : WithBot ℚ), some top)
                             else (st.best_fitness, st.best_solution)).2
                           best_fitness := (if st.best_fitness < (top.fitness : WithBot ℚ)
                             then ((top.fitness : WithBot ℚ), some top)
                             else (st.best_fitness, st.best_solution)).1
                           rng := pr.2 } := by
          exact (Except.ok.inj h).symm
        rw [hst]
        by_cases hlt : st.best_fitness < (top.fitness : WithBot ℚ)
        · simp [hlt]
          exact le_of_lt hlt
        · simp [hlt]

/-- C6: the best-ever fitness tracked by the GA's generational loop is
non-decreasing: running any number of generations from any loop state can only
raise the tracked value (it is replaced only by a strictly greater fitness). -/
theorem ga_best_fitness_monotone (cfg : GAConfig) (dKm : Location → Location → ℚ)
    (stops : List Stop) (buses : List Bus) (n : ℕ) (st : GAState)
    (h : (gaLoop cfg dKm stops buses n st).isOk = true) :
    st.best_fitness ≤ exceptBestFitness (gaLoop cfg dKm stops buses n st) := by
  induction n generalizing st with
  | zero => simp [gaLoop, exceptBestFitness]
  | succ n ih =>
    cases hstep : gaStep cfg dKm stops buses st with
    | error e =>
      have : gaLoop cfg dKm stops buses (n + 1) st = Except.error e := by
        simp [gaLoop, hstep, Bind.bind, Except.bind]
      rw [this] at h
      simp [Except.isOk, Except.toBool] at h
    | ok st1 =>
      have hl : gaLoop cfg dKm stops buses (n + 1) st =
          gaLoop cfg dKm stops buses n st1 := by
        simp [gaLoop, hstep, Bind.bind, Except.bind]
      rw [hl] at h ⊢
      exact le_trans (gaStep_best_fitness_mono cfg dKm stops buses st st1 hstep) (ih st1 h)

def c6w_cfg : GAConfig :=
  { population_size := 4, generations := 1, mutation_rate := 1/10, crossover_rate := 4/5 }

def c6w_stops : List Stop :=
  [{ id := 1, location := { lat := 0, lng := 0 }, students := 5 },
   { id := 2, location := { lat := 0, lng := 1 }, students := 3 },
   { id := 3, location := { lat := 1, lng := 0 }, students := 4 }]

def c6w_buses : List Bus := [{ id := 1, capacity := 50 }]

def c6w_st : GAState :=
  { population := [{ bus_id := 1, stops := [1, 2] }, { bus_id := 1, stops := [2, 3] },
                   { bus_id := 1, stops := [1, 3] }, { bus_id := 1, stops := [1, 2, 3] }]
    best_solution := none
    best_fitness := ⊥
    rng := ⟨7⟩ }

/-- Witness for C6: one concrete generation step succeeds and can only raise the
tracked best fitness. -/
theorem ga_best_fitness_monotone_witness :
    c6w_st.best_fitness ≤
      exceptBestFitness (gaLoop c6w_cfg (fun _ _ => 1) c6w_stops c6w_buses 1 c6w_st) :=
  ga_best_fitness_monotone c6w_cfg (fun _ _ => 1) c6w_stops c6w_buses 1 c6w_st
    (by with_unfolding_all decide)

/-- C7: the GA optimizer is deterministic: with the random generator an explicit
input, two runs on identical stops, buses, constraints and generator state return
identical results (routes and metrics included). -/
theorem ga_optimize_deterministic (cfg : GAConfig) (dKm : Location → Location → ℚ)
    (stops1 stops2 : List StopD) (buses1 buses2 : List BusD)
    (cons1 cons2 : Constraints) (g1 g2 : RNG)
    (hs : stops1 = stops2) (hb : buses1 = buses2) (hc : cons1 = cons2) (hg : g1 = g2) :
    GAOptimizer.optimize cfg dKm stops1 buses1 cons1 g1 =
      GAOptimizer.optimize cfg dKm stops2 buses2 cons2 g2 := by
  rw [hs, hb, hc, hg]

def c7w_stops : List StopD :=
  [{ id := 1, location := { lat := 0, lng := 0 }, students := some 5 }]

def c7w_buses : List BusD := [{ id := 1, capacity := 50 }]

/-- Witness for C7 at a concrete request and seed. -/
theorem ga_optimize_deterministic_witness :
    GAOptimizer.optimize {} (fun _ _ => 0) c7w_stops c7w_buses {} ⟨42⟩ =
      GAOptimizer.optimize {} (fun _ _ => 0) c7w_stops c7w_buses {} ⟨42⟩ :=
  ga_optimize_deterministic {} (fun _ _ => 0) c7w_stops c7w_stops c7w_buses c7w_buses
    {} {} ⟨42⟩ ⟨42⟩ rfl rfl rfl rfl

lemma foldlM_ok_const {α β : Type} (l : List β) (acc : α) :
    l.foldlM (fun a _ => (pure a : Except Err α)) acc = pure acc := by
  induction l generalizing acc with
  | nil => rfl
  | cons x xs ih => simpa [List.foldlM] using ih acc

lemma init_population_empty_buses (cfg : GAConfig) (stops : List Stop) (g : RNG) :
    init_population cfg stops [] g = Except.ok ([], g) := by
  unfold init_population
  simp only [List.foldlM_nil]
  rw [show (List.range cfg.population_size).foldlM
        (fun (acc : List Route × RNG) _ => (pure acc : Except Err (List Route × RNG)))
        ([], g) = pure ([], g) from foldlM_ok_const _ _]
  simp [pure, Except.pure, List.take_nil, Bind.bind, Except.bind]

lemma gaStep_empty_population (cfg : GAConfig) (dKm : Location → Location → ℚ)
    (stops : List Stop) (buses : List Bus) (st : GAState)
    (hpop : st.population = []) :
    gaStep cfg dKm stops buses st = Except.error Err.indexError := by
  unfold gaStep evalFitness
  rw [hpop]
  rfl

/-- C2 (amended): a request with a non-empty stop list and an empty vehicle list is
not rejected before search: population initialization returns an empty population
and the first generation fails at `population[0]` with an `IndexError`; no
`ConfigurationError` is raised. -/
theorem optimize_empty_buses_index_error (cfg : GAConfig)
    (dKm : Location → Location → ℚ) (stops : List StopD)
    (constraints : Constraints) (g : RNG)
    (_hs : stops ≠ []) (hg : 0 < cfg.generations) :
    GAOptimizer.optimize cfg dKm stops [] constraints g =
      Except.error Err.indexError := by
  obtain ⟨n, hn⟩ : ∃ n, cfg.generations = n + 1 := ⟨cfg.generations - 1, by omega⟩
  have hstep : gaStep cfg dKm
      (stops.map (fun s => { id := s.id, location := s.location,
                             students := s.students.getD 1 : Stop })) []
      { population := [], best_solution := none, best_fitness := ⊥, rng := g } =
      Except.error Err.indexError :=
    gaStep_empty_population _ _ _ _ _ rfl
  simp only [GAOptimizer.optimize, List.map_nil, hn, init_population_empty_buses,
             gaLoop, hstep, Bind.bind, Except.bind]

def c2w_stops : List StopD :=
  [{ id := 7, location := { lat := 0, lng := 3 }, students := none }]

/-- Witness for the amended C2 at a concrete request. -/
theorem optimize_empty_buses_index_error_witness :
    GAOptimizer.optimize { population_size := 5, generations := 3 } (fun _ _ => 2)
      c2w_stops [] { max_time := some 60 } ⟨11⟩ = Except.error Err.indexError :=
  optimize_empty_buses_index_error { population_size := 5, generations := 3 }
    (fun _ _ => 2) c2w_stops { max_time := some 60 } ⟨11⟩ (by decide) (by decide)

def c2x_stops : List StopD :=
  [{ id := 5, location := { lat := 1, lng := 2 }, students := some 4 }]

/-- C2 counterexample: with one stop and no vehicles (default GA configuration),
`optimize` fails with an `IndexError` during search, not with the
`ConfigurationError` the claim asserts. -/
theorem optimize_empty_buses_not_config_error :
    GAOptimizer.optimize {} (fun _ _ => 0) c2x_stops [] {} ⟨9⟩ =
        Except.error Err.indexError ∧
      GAOptimizer.optimize {} (fun _ _ => 0) c2x_stops [] {} ⟨9⟩ ≠
        Except.error Err.configurationError := by
  constructor
  · with_unfolding_all decide
  · with_unfolding_all decide

def c3x_buses : List BusD := [{ id := 1, capacity := 50 }]

/-- C3: a request with an empty stop list and one vehicle does not yield the
trivial zero-stop result: `_initialize_population` evaluates
`random.randint(3, len(stop_ids))` with `len(stop_ids) = 0`, raising
`ValueError` before any generation runs. -/
theorem optimize_empty_stops_value_error :
    GAOptimizer.optimize {} (fun _ _ => 0) [] c3x_buses {} ⟨5⟩ =
      Except.error Err.valueError := by
  with_unfolding_all decide

/-- C4: the hybrid orchestrator always takes the GA result as baseline; when the
stop count is at most 20 it returns the GA result tagged `genetic` without
consulting the RL optimizer; when the stop count exceeds 20 it also runs the RL
optimizer and returns the RL result tagged `rl` exactly when the RL
`total_distance_km` (a missing value comparing as `+∞`) is strictly lower,
otherwise — ties included — the GA result tagged `genetic`. -/
theorem hybrid_selects_lower_distance
    (gaOpt rlOpt : List StopD → List BusD → Constraints → Except Err OptResult)
    (stops : List StopD) (buses : List BusD) (constraints : Constraints)
    (ga : OptResult) (hga : gaOpt stops buses constraints = Except.ok ga) :
    (stops.length ≤ 20 →
      RouteOptimizer.optimize gaOpt rlOpt stops buses constraints =
        Except.ok (apply_heuristics { ga with algorithm_used := some "genetic" })) ∧
    (20 < stops.length →
      ∀ rl : OptResult, rlOpt stops buses constraints = Except.ok rl →
        (distScore rl.metrics.total_distance_km <
            distScore ga.metrics.total_distance_km →
          RouteOptimizer.optimize gaOpt rlOpt stops buses constraints =
            Except.ok (apply_heuristics { rl with algorithm_used := some "rl" })) ∧
        (distScore ga.metrics.total_distance_km ≤
            distScore rl.metrics.total_distance_km →
          RouteOptimizer.optimize gaOpt rlOpt stops buses constraints =
            Except.ok (apply_heuristics { ga with algorithm_used := some "genetic" }))) := by
  constructor
  · intro hle
    have hnot : ¬ (20 : ℕ) < stops.length := by omega
    simp [RouteOptimizer.optimize, hga, hnot, Bind.bind, Except.bind, gt_iff_lt]
  · intro hgt rl hrl
    constructor
    · intro hlt
      simp [RouteOptimizer.optimize, hga, hrl, hgt, hlt, Bind.bind, Except.bind, gt_iff_lt]
    · intro hle
      have hnlt : ¬ (distScore rl.metrics.total_distance_km <
          distScore ga.metrics.total_distance_km) := not_lt.mpr hle
      simp [RouteOptimizer.optimize, hga, hrl, hgt, hnlt, Bind.bind, Except.bind, gt_iff_lt]

def c4w_ga : OptResult := { routes := [], metrics := { total_distance_km := some 40 } }

def c4w_rl : OptResult := { routes := [], metrics := { total_distance_km := some 25 } }

def c4w_stops : List StopD :=
  List.replicate 21 { id := 1, location := { lat := 0, lng := 0 } }

def c4w_gaOpt : List StopD → List BusD → Constraints → Except Err OptResult :=
  fun _ _ _ => Except.ok c4w_ga

def c4w_rlOpt : List StopD → List BusD → Constraints → Except Err OptResult :=
  fun _ _ _ => Except.ok c4w_rl

/-- Witness for C4, following the spec's own example: GA distance 40, RL distance
25, 21 stops, so the orchestrator returns the RL result tagged `rl`. -/
theorem hybrid_selects_lower_distance_witness :
    RouteOptimizer.optimize c4w_gaOpt c4w_rlOpt c4w_stops [] {} =
      Except.ok (apply_heuristics { c4w_rl with algorithm_used := some "rl" }) :=
  (((hybrid_selects_lower_distance c4w_gaOpt c4w_rlOpt c4w_stops [] {} c4w_ga rfl).2
      (by decide)) c4w_rl rfl).1 (by with_unfolding_all decide)

lemma trainFold_epsilon (mb : List Transition) : ∀ d : DQN,
    (mb.foldl trainStep d).epsilon = d.epsilon ∧
    (mb.foldl trainStep d).epsilon_min = d.epsilon_min ∧
    (mb.foldl trainStep d).epsilon_decay = d.epsilon_decay := by
  induction mb with
  | nil => exact fun d => ⟨rfl, rfl, rfl⟩
  | cons t ts ih =>
    intro d
    simpa [List.foldl_cons, trainStep] using ih (trainStep d t)

lemma replay_epsilon_invariant (d : DQN) (g : RNG) (bs : ℕ)
    (hmin : d.epsilon_min = 1/100) (hdec : d.epsilon_decay = 995/1000)
    (heps : 199/20000 ≤ d.epsilon) :
    (d.replay g bs).1.epsilon_min = 1/100 ∧
    (d.replay g bs).1.epsilon_decay = 995/1000 ∧
    199/20000 ≤ (d.replay g bs).1.epsilon := by
  unfold DQN.replay
  by_cases hlen : d.memory.length < bs
  · simp [hlen, hmin, hdec, heps]
  · simp only [hlen, if_false]
    cases hsk : sampleK g d.memory bs with
    | none => simp [hmin, hdec, heps]
    | some pr =>
      obtain ⟨mb, g'⟩ := pr
      obtain ⟨he, hm, hd⟩ := trainFold_epsilon mb d
      simp only
      by_cases hc : (mb.foldl trainStep d).epsilon_min < (mb.foldl trainStep d).epsilon
      · simp only [hc, if_true]
        refine ⟨hm.trans hmin, hd.trans hdec, ?_⟩
        rw [he, hd, hdec]
        rw [he, hm, hmin] at hc
        have h1 : (1/100 : ℚ) * (995/1000) ≤ d.epsilon * (995/1000) :=
          mul_le_mul_of_nonneg_right (le_of_lt hc) (by norm_num)
        calc (199/20000 : ℚ) = (1/100) * (995/1000) := by norm_num
          _ ≤ d.epsilon * (995/1000) := h1
      · simp only [hc, if_false]
        exact ⟨hm.trans hmin, hd.trans hdec, he ▸ heps⟩

lemma runOps_epsilon_invariant (ops : List DQNOp) : ∀ (d : DQN) (g : RNG),
    d.epsilon_min = 1/100 → d.epsilon_decay = 995/1000 → 199/20000 ≤ d.epsilon →
    199/20000 ≤ (runOps d g ops).1.epsilon := by
  induction ops with
  | nil => exact fun d g _ _ heps => heps
  | cons op ops ih =>
    intro d g hmin hdec heps
    cases op with
    | rememberOp t =>
      exact ih (d.remember t) g hmin hdec heps
    | replayOp bs =>
      obtain ⟨hm, hd, he⟩ := replay_epsilon_invariant d g bs hmin hdec heps
      simpa [runOps] using ih (d.replay g bs).1 (d.replay g bs).2 hm hd he

/-- C8 (amended): epsilon starts at 1.0 and is multiplied by 0.995 after a
training replay only while it still exceeds 0.01, so the final decay can carry it
slightly below the nominal floor of 0.01; across every sequence of
remember/replay operations epsilon never falls below 0.995 × 0.01 = 0.00995. -/
theorem dqn_epsilon_lower_bound (state_size action_size : ℕ) (g : RNG)
    (ops : List DQNOp) :
    (DQN.make state_size action_size).epsilon = 1 ∧
    199/20000 ≤ (runOps (DQN.make state_size action_size) g ops).1.epsilon :=
  ⟨rfl, runOps_epsilon_invariant ops (DQN.make state_size action_size) g rfl rfl
    (by norm_num [DQN.make])⟩

def c8x_t : Transition :=
  { state := [], action := 0, reward := 0, next_state := [], done := true }

def c8x_ops : List DQNOp :=
  DQNOp.rememberOp c8x_t :: List.replicate 919 (DQNOp.replayOp 1)

set_option maxRecDepth 40000 in
/-- C8 counterexample: one remembered transition followed by 919 training replays
(batch size 1, every one of which trains) drives epsilon to 0.995^919, which is
strictly below the claimed floor of 0.01. -/
theorem dqn_epsilon_below_floor :
    (runOps (DQN.make 24 10) ⟨1⟩ c8x_ops).1.epsilon < 1/100 := by
  with_unfolding_all decide

lemma rlPairSum_some (pd : Location → Location → ℚ) (stops : List StopD) :
    ∀ ps : List (ℤ × ℤ),
      (∀ p ∈ ps, (findStopD stops p.1).isSome ∧ (findStopD stops p.2).isSome) →
      ∃ d, rlPairSum pd stops ps = some d := by
  intro ps
  induction ps with
  | nil => exact fun _ => ⟨0, rfl⟩
  | cons p ps ih =>
    intro h
    obtain ⟨h1, h2⟩ := h p (List.mem_cons_self p ps)
    obtain ⟨s1, hs1⟩ := Option.isSome_iff_exists.mp h1
    obtain ⟨s2, hs2⟩ := Option.isSome_iff_exists.mp h2
    obtain ⟨d, hds⟩ := ih (fun q hq => h q (List.mem_cons_of_mem p hq))
    exact ⟨pd s1.location s2.location + d, by simp [rlPairSum, hs1, hs2, hds]⟩

lemma mapMO_isSome {α β : Type} (f : α → Option β) :
    ∀ l : List α, (∀ a ∈ l, (f a).isSome) → ∃ bs, mapMO f l = some bs := by
  intro l
  induction l with
  | nil => exact fun _ => ⟨[], rfl⟩
  | cons a l ih =>
    intro h
    obtain ⟨b, hb⟩ := Option.isSome_iff_exists.mp (h a (List.mem_cons_self a l))
    obtain ⟨bs, hbs⟩ := ih (fun x hx => h x (List.mem_cons_of_mem a hx))
    exact ⟨b :: bs, by simp [mapMO, hb, hbs]⟩

lemma snd_mem_of_mem_enum {l : List ℤ} {p : ℕ × ℤ} (h : p ∈ l.enum) : p.2 ∈ l := by
  obtain ⟨i, x⟩ := p
  rw [List.enum_eq_zip_range] at h
  exact (List.of_mem_zip h).2

/-- C9: `_format_results` returns exactly `{'routes': [], 'metrics': {}}` when the
best route or the bus list is empty; otherwise it returns exactly one route whose
`bus_id` is the id of the first bus, regardless of how many vehicles were
supplied or of their capacities. -/
theorem rl_format_results_first_bus (pd : Location → Location → ℚ) (episodes : ℕ)
    (route : List ℤ) (stops : List StopD) (buses : List BusD) (reward : ℚ) :
    ((route = [] ∨ buses = []) →
      RLOptimizer.format_results pd episodes route stops buses reward =
        some { routes := [], metrics := {} }) ∧
    (∀ b bs, buses = b :: bs → route ≠ [] →
      (∀ sid ∈ route, (findStopD stops sid).isSome) →
      ∃ res, RLOptimizer.format_results pd episodes route stops buses reward = some res ∧
        res.routes.length = 1 ∧ ∀ fr ∈ res.routes, fr.bus_id = b.id) := by
  constructor
  · intro h
    cases h with
    | inl h => simp [RLOptimizer.format_results, h]
    | inr h => simp [RLOptimizer.format_results, h]
  · intro b bs hb hr hids
    have hre : route.isEmpty = false := by
      cases route with
      | nil => exact absurd rfl hr
      | cons x xs => rfl
    obtain ⟨d, hd⟩ := rlPairSum_some pd stops (route.zip route.tail) (by
      intro p hp
      obtain ⟨a, c⟩ := p
      obtain ⟨ha, hc⟩ := List.of_mem_zip hp
      exact ⟨hids a ha, hids c ((List.tail_sublist route).mem hc)⟩)
    obtain ⟨fstops, hf⟩ := mapMO_isSome
      (fun p : ℕ × ℤ => do
        let s ← findStopD stops p.2
        pure { id := p.2, location := s.location, sequence := p.1 : FormattedStop })
      route.enum (by
        intro p hp
        obtain ⟨s, hs⟩ := Option.isSome_iff_exists.mp (hids p.2 (snd_mem_of_mem_enum hp))
        simp [hs, Bind.bind, Option.bind])
    refine ⟨{ routes := [{ bus_id := b.id, stops := fstops
                           rl_reward := some (roundTo 2 reward) }]
              metrics := { total_distance_km := some (roundTo 2 d)
                           estimated_time_minutes := some (roundTo 2 ((route.length : ℚ) * 5))
                           stops_count := some route.length
                           rl_episodes := some episodes
                           final_reward := some (roundTo 2 reward) } }, ?_, rfl, ?_⟩
    · simp only [RLOptimizer.format_results, hre, hb, List.isEmpty_cons, Bool.or_false,
                 Bool.false_eq_true, if_false]
      simp only [Bind.bind, Option.bind, pure] at hf ⊢
      simp [hd, hf]
    · intro fr hfr
      simp only [List.mem_singleton] at hfr
      rw [hfr]

def c9w_stops : List StopD :=
  [{ id := 1, location := { lat := 0, lng := 0 }, students := some 3 },
   { id := 2, location := { lat := 0, lng := 1 }, students := some 4 }]

def c9w_buses : List BusD := [{ id := 9, capacity := 30 }, { id := 10, capacity := 40 }]

/-- Witness for C9: with two buses supplied, the formatted RL result holds exactly
one route, assigned to the first bus (id 9). -/
theorem rl_format_results_first_bus_witness :
    ∃ res, RLOptimizer.format_results (fun _ _ => 1) 100 [1, 2] c9w_stops c9w_buses 5 =
        some res ∧ res.routes.length = 1 ∧ ∀ fr ∈ res.routes, fr.bus_id = 9 :=
  (rl_format_results_first_bus (fun _ _ => 1) 100 [1, 2] c9w_stops c9w_buses 5).2
    { id := 9, capacity := 30 } [{ id := 10, capacity := 40 }] rfl (by decide) (by decide)

lemma floor_le_roundHalfEven (q : ℚ) : ⌊q⌋ ≤ roundHalfEven q := by
  simp only [roundHalfEven]
  split_ifs <;> omega

/-- C10 (amended): in the GA's final metrics, `capacity_utilization` is the
uncapped ratio `students_served / capacity * 100` rounded to two decimals; it
exceeds 100 whenever the served students exceed the vehicle's capacity, provided
the capacity is at most 10000 (so that the minimum excess of `100/capacity`
survives the two-decimal rounding); the capacity term inside the fitness
computation, by contrast, is `min(served/capacity, 1.0)`, capped at 1. -/
theorem ga_capacity_utilization_uncapped (dKm : Location → Location → ℚ)
    (route : Route) (stops : List Stop) (buses : List Bus) (bus : Bus) (d : ℚ)
    (hbus : findBus buses route.bus_id = some bus) (hcap : 0 < bus.capacity)
    (hdist : calculate_total_distance dKm route stops = some d) :
    ∃ m, calculate_route_metrics dKm route stops buses = some m ∧
      m.capacity_utilization =
        some (roundTo 2
          ((routeStudents stops route.stops : ℚ) / (bus.capacity : ℚ) * 100)) ∧
      (bus.capacity < routeStudents stops route.stops → bus.capacity ≤ 10000 →
        ∀ u, m.capacity_utilization = some u → 100 < u) ∧
      calculate_fitness dKm route stops buses =
        some (distance_weight * (1 / (1 + d / 100)) +
              time_weight * (1 / (1 + (d / 30 * 60) / 60)) +
              capacity_weight *
                min ((routeStudents stops route.stops : ℚ) / (bus.capacity : ℚ)) 1) ∧
      min ((routeStudents stops route.stops : ℚ) / (bus.capacity : ℚ)) 1 ≤ 1 := by
  have hcapq : (0 : ℚ) < (bus.capacity : ℚ) := by exact_mod_cast hcap
  refine ⟨{ total_distance_km := some (roundTo 2 d)
            estimated_time_minutes := some (roundTo 2 (d / 30 * 60))
            fuel_consumption_liters := some (roundTo 2 (d / bus.fuel_efficiency))
            students_served := some (routeStudents stops route.stops)
            capacity_utilization := some (roundTo 2
              ((routeStudents stops route.stops : ℚ) / (bus.capacity : ℚ) * 100))
            stops_count := some route.stops.length },
    by simp [calculate_route_metrics, hdist, hbus, Bind.bind, Option.bind], rfl,
    ?_, by simp [calculate_fitness, hdist, hbus, Bind.bind, Option.bind], min_le_right _ _⟩
  intro hover hsmall u hu
  obtain rfl : u = roundTo 2
      ((routeStudents stops route.stops : ℚ) / (bus.capacity : ℚ) * 100) :=
    Option.some.inj hu.symm
  set v : ℚ := (routeStudents stops route.stops : ℚ) / (bus.capacity : ℚ) * 100 with hv
  have hserved : (bus.capacity : ℚ) + 1 ≤ (routeStudents stops route.stops : ℚ) := by
    exact_mod_cast Int.add_one_le_iff.mpr hover
  have hsmallq : (bus.capacity : ℚ) ≤ 10000 := by exact_mod_cast hsmall
  have hratio : ((bus.capacity : ℚ) + 1) / (bus.capacity : ℚ) ≤
      (routeStudents stops route.stops : ℚ) / (bus.capacity : ℚ) :=
    (div_le_div_iff_of_pos_right hcapq).mpr hserved
  have hsplit : ((bus.capacity : ℚ) + 1) / (bus.capacity : ℚ) =
      1 + 1 / (bus.capacity : ℚ) := by
    field_simp
  have hfrac : (1 : ℚ) / 10000 ≤ 1 / (bus.capacity : ℚ) := by
    gcongr
  have hvlb : 10001 / 100 ≤ v := by
    rw [hv]
    have h1 : 1 + 1 / 10000 ≤ (routeStudents stops route.stops : ℚ) / (bus.capacity : ℚ) := by
      rw [hsplit] at hratio
      linarith
    have h2 : (1 + 1 / 10000 : ℚ) * 100 ≤
        (routeStudents stops route.stops : ℚ) / (bus.capacity : ℚ) * 100 :=
      mul_le_mul_of_nonneg_right h1 (by norm_num)
    calc (10001 / 100 : ℚ) = (1 + 1 / 10000) * 100 := by norm_num
      _ ≤ _ := h2
  have hfloor : (10001 : ℤ) ≤ ⌊v * 10 ^ 2⌋ := by
    apply Int.le_floor.mpr
    push_cast
    have h2 : v * 10 ^ 2 = v * 100 := by norm_num
    rw [h2]
    linarith [hvlb]
  have hrd : (10001 : ℤ) ≤ roundHalfEven (v * 10 ^ 2) :=
    le_trans hfloor (floor_le_roundHalfEven _)
  have hrdq : (10001 : ℚ) ≤ (roundHalfEven (v * 10 ^ 2) : ℚ) := by exact_mod_cast hrd
  unfold roundTo
  rw [lt_div_iff₀ (by norm_num : (0:ℚ) < 10 ^ 2)]
  have h3 : (100 : ℚ) * 10 ^ 2 = 10000 := by norm_num
  linarith [hrdq]

def c10x_stops : List Stop :=
  [{ id := 1, location := { lat := 0, lng := 0 }, students := 1000001 }]

def c10x_buses : List Bus := [{ id := 1, capacity := 1000000 }]

def c10x_route : Route := { bus_id := 1, stops := [1] }

/-- C10 counterexample: with capacity 1000000 and 1000001 students served, the
reported `capacity_utilization` is exactly 100 after the two-decimal rounding —
it does not exceed 100 although the served students exceed the capacity. -/
theorem ga_capacity_utilization_rounded_to_100 :
    (calculate_route_metrics (fun _ _ => 0) c10x_route c10x_stops c10x_buses).map
        Metrics.capacity_utilization = some (some 100) ∧
      (1000000 : ℤ) < routeStudents c10x_stops c10x_route.stops := by
  constructor
  · with_unfolding_all decide
  · with_unfolding_all decide

def c10w_stops : List Stop :=
  [{ id := 1, location := { lat := 0, lng := 0 }, students := 55 }]

def c10w_buses : List Bus := [{ id := 1, capacity := 50 }]

def c10w_route : Route := { bus_id := 1, stops := [1] }

/-- Witness for the amended C10: capacity 50 and 55 served students give an
uncapped utilization above 100, while the fitness capacity term stays at 1. -/
theorem ga_capacity_utilization_uncapped_witness :
    ∃ m, calculate_route_metrics (fun _ _ => 0) c10w_route c10w_stops c10w_buses =
        some m ∧
      m.capacity_utilization =
        some (roundTo 2
          ((routeStudents c10w_stops c10w_route.stops : ℚ) / ((50 : ℤ) : ℚ) * 100)) ∧
      ((50 : ℤ) < routeStudents c10w_stops c10w_route.stops → (50 : ℤ) ≤ 10000 →
        ∀ u, m.capacity_utilization = some u → 100 < u) ∧
      calculate_fitness (fun _ _ => 0) c10w_route c10w_stops c10w_buses =
        some (distance_weight * (1 / (1 + 0 / 100)) +
              time_weight * (1 / (1 + (0 / 30 * 60) / 60)) +
              capacity_weight *
                min ((routeStudents c10w_stops c10w_route.stops : ℚ) / ((50 : ℤ) : ℚ)) 1) ∧
      min ((routeStudents c10w_stops c10w_route.stops : ℚ) / ((50 : ℤ) : ℚ)) 1 ≤ 1 :=
  ga_capacity_utilization_uncapped (fun _ _ => 0) c10w_route c10w_stops c10w_buses
    { id := 1, capacity := 50 } 0 (by decide) (by decide) (by decide)

end SBR
